import Mathlib

/-!
Verification of the core pipeline of the sim-proxy worker: the retrying fetch
wrapper (`src/utils/fetch.ts`), the proxy orchestrator and bounded response
reader (`src/utils/proxy.ts`), the subrequest budget gate
(`src/config/constants.ts`), the jittered backoff calculator, and the
KV-backed rate limiter (`src/middleware/rateLimit.ts`).  Each TypeScript
function is shallowly embedded as an executable Lean definition; effects
(the network, the KV store, Math.random) appear as explicit parameters.
-/

namespace SimProxy

/-- Constant from src/config/constants.ts: 24MB response ceiling. -/
def MAX_RESPONSE_SIZE : Nat := 24 * 1024 * 1024

/-- Constant from src/config/constants.ts: subrequest budget per inbound request. -/
def MAX_SUBREQUESTS : Nat := 45

/-- Constant from src/config/constants.ts (CACHE_CONFIG.SUPPORTED_CHAINS_TTL). -/
def SUPPORTED_CHAINS_TTL : Nat := 3600

/-- Constant from src/config/constants.ts (CACHE_CONFIG.SUPPORTED_CHAINS_STALE_TTL). -/
def SUPPORTED_CHAINS_STALE_TTL : Nat := 86400

/-- NODE_ENV values admitted by the env schema (src/config/env.ts). -/
inductive Mode where
  | development
  | production
  | test
deriving DecidableEq, Repr

/-- A fetch Response as far as the retry loop inspects it. -/
structure Resp where
  status : Nat
  body : String
deriving DecidableEq, Repr

/-- Outcome of one `fetch` attempt: a resolved response or a thrown
network-level error (carried as its message). -/
inductive Outcome where
  | resp (r : Resp)
  | thrown (e : String)
deriving DecidableEq, Repr

/-- Whether an attempt outcome was a thrown error. -/
def Outcome.isThrown : Outcome → Bool
  | .thrown _ => true
  | .resp _ => false

/-- An attempt outcome lets the loop continue: a thrown error always does,
a response does when the retry predicate accepts it. -/
def retryable (s : Resp → Bool) : Outcome → Bool
  | .thrown _ => true
  | .resp r => s r

/-- The `for (attempt = 1; attempt <= maxRetries; ...)` loop of
`fetchWithRetry` (src/utils/fetch.ts).  The list holds the outcome each
remaining attempt would produce, so `attempt < maxRetries` is `rest ≠ []`.
State threads `lastError` and `lastResponse` exactly as the source does;
the empty-list case is the code after the loop (return `lastResponse` if
any, else throw `lastError`). -/
def retryLoop (s : Resp → Bool) :
    List Outcome → Option String → Option Resp → Except String Resp
  | [], lastError, lastResponse =>
    match lastResponse with
    | some r => Except.ok r
    | none => Except.error (lastError.getD ("Failed to fetch after max attempts"))
  | Outcome.resp r :: rest, lastError, _ =>
    if rest.isEmpty then Except.ok r
    else if s r then retryLoop s rest lastError (some r)
    else Except.ok r
  | Outcome.thrown e :: rest, _, lastResponse =>
    retryLoop s rest (some e) lastResponse

/-- `fetchWithRetry` (src/utils/fetch.ts): run the attempt loop with empty
`lastError`/`lastResponse` state.  `outcomes.length` plays `maxRetries`. -/
def fetchWithRetry (s : Resp → Bool) (outcomes : List Outcome) : Except String Resp :=
  retryLoop s outcomes none none

/-- The most recent response among a list of attempt outcomes, starting
from a known previous response `d`. -/
def lastRespD : List Outcome → Resp → Resp
  | [], d => d
  | Outcome.resp r :: l, _ => lastRespD l r
  | Outcome.thrown _ :: l, d => lastRespD l d

/-- The most recent response among a list of attempt outcomes, if any. -/
def lastResp? : List Outcome → Option Resp
  | [] => none
  | Outcome.resp r :: l => some (lastRespD l r)
  | Outcome.thrown _ :: l => lastResp? l

/-- Concrete retry predicate used by the C1 analysis: retry 5xx. -/
def retryOn5xx (r : Resp) : Bool := decide (500 ≤ r.status)

/-- A concrete 500 upstream response. -/
def resp500 : Resp := ⟨500, "upstream error"⟩

/-- `response.ok` of the fetch API: status in [200, 300). -/
def statusOk (status : Nat) : Bool := decide (200 ≤ status ∧ status < 300)

/-- Cache-Control value built for supported-chains paths
(`public, max-age=${SUPPORTED_CHAINS_TTL}, s-maxage=${SUPPORTED_CHAINS_STALE_TTL}`). -/
def supportedChainsCacheValue : String :=
  "public, max-age=" ++ toString SUPPORTED_CHAINS_TTL ++ ", s-maxage="
    ++ toString SUPPORTED_CHAINS_STALE_TTL

/-- Whether `needle` is a prefix of the character list `hay`. -/
def charsHasPrefix : List Char → List Char → Bool
  | _, [] => true
  | [], _ :: _ => false
  | c :: cs, d :: ds => c == d && charsHasPrefix cs ds

/-- Whether `needle` occurs contiguously inside `hay`. -/
def charsContains : List Char → List Char → Bool
  | [], needle => needle.isEmpty
  | c :: rest, needle => charsHasPrefix (c :: rest) needle || charsContains rest needle

/-- `path.includes(sub)` of JavaScript: contiguous substring occurrence. -/
def pathIncludes (path sub : String) : Bool := charsContains path.toList sub.toList

/-- `createCacheHeaders` (src/utils/proxy.ts lines 17-31): Cache-Control by
path shape, then Content-Type json. -/
def createCacheHeaders (path : String) : List (String × String) :=
  if pathIncludes path ("supported-chains") then
    [("Cache-Control", supportedChainsCacheValue), ("Content-Type", "application/json")]
  else
    [("Cache-Control", "private, no-cache"), ("Content-Type", "application/json")]

/-- An HTTPException as thrown by the proxy: status, message, and an
optional structured cause of type `ι`. -/
structure HTTPErr (ι : Type) where
  status : Nat
  message : String
  cause : Option ι
deriving DecidableEq, Repr

/-- A shaped Response produced by the orchestrator: status, body payload,
response headers. -/
structure ShapedResp (α : Type) where
  status : Nat
  body : α
  headers : List (String × String)
deriving DecidableEq, Repr

/-- Response-shaping stage of `executeProxyRequest` (src/utils/proxy.ts
lines 148-188), applied to the upstream status and the JSON body parsed by
`processResponse`.  `parse` is the `parse` of the caller-supplied Zod schema
(returning the validated value or the structured issues), `mode` is
NODE_ENV.  2xx: validate, shape with cache headers on success, throw 502
with issues gated by development mode on failure.  Non-2xx: pass the parsed
body through with the upstream status and a JSON content type. -/
def executeProxyRequest {α ι : Type} (mode : Mode) (pathname : String)
    (parse : α → Except ι α) (status : Nat) (data : α) :
    Except (HTTPErr ι) (ShapedResp α) :=
  if statusOk status then
    match parse data with
    | Except.ok v => Except.ok ⟨status, v, createCacheHeaders pathname⟩
    | Except.error issues =>
      Except.error ⟨502, "Invalid response schema from upstream API",
        if mode = Mode.development then some issues else none⟩
  else
    Except.ok ⟨status, data, [("Content-Type", "application/json")]⟩

/-- Structured failure of one `proxyRequest` invocation: the pre-flight
budget rejection (HTTPException 429 with limit/current cause) or a failure
propagated from the request execution. -/
inductive ProxyFailure (ε : Type) where
  | budget (status limit current : Nat)
  | upstream (e : ε)
deriving DecidableEq, Repr

/-- Observable effects of one `proxyRequest` invocation: its result, the
subrequest counter afterwards, and how many fresh outbound request
sequences (calls of `executeProxyRequest`) it issued. -/
structure ProxyStep (ε ρ : Type) where
  result : Except (ProxyFailure ε) ρ
  newCount : Nat
  outboundCalls : Nat

/-- `shouldDeduplicate` (src/utils/proxy.ts lines 34-36). -/
def shouldDeduplicate (method : String) : Bool :=
  method == "GET" || method == "HEAD"

/-- `response.clone()` modeled value-wise: in the pure embedding a
defensive clone is the same value. -/
def cloneResponse {ρ : Type} (r : ρ) : ρ := r

/-- Control flow of `proxyRequest` (src/utils/proxy.ts lines 38-105) for a
single invocation.  `count` is the `subrequestCount` of the context; `inFlight`
is the settled outcome of an existing in-flight entry for this method+URL
key, if one exists; `fresh` is the outcome that a fresh `executeProxyRequest`
sequence of this very invocation would produce.  Budget gate first (throw
429, no increment, no outbound work); then increment; then for GET/HEAD a
dedup hit returns a clone of the shared result, a failed shared result
falls through to one fresh sequence, and everything else issues one fresh
sequence. -/
def proxyRequest {ε ρ : Type} (method : String) (count : Nat)
    (inFlight : Option (Except ε ρ)) (fresh : Except ε ρ) : ProxyStep ε ρ :=
  if MAX_SUBREQUESTS ≤ count then
    ⟨Except.error (ProxyFailure.budget 429 MAX_SUBREQUESTS count), count, 0⟩
  else
    if shouldDeduplicate method then
      match inFlight with
      | some (Except.ok r) => ⟨Except.ok (cloneResponse r), count + 1, 0⟩
      | some (Except.error _) => ⟨fresh.mapError ProxyFailure.upstream, count + 1, 1⟩
      | none => ⟨fresh.mapError ProxyFailure.upstream, count + 1, 1⟩
    else ⟨fresh.mapError ProxyFailure.upstream, count + 1, 1⟩

/-- Failures of `processResponse` (src/utils/proxy.ts lines 203-261):
HTTPException 413 carrying observed size and limit, or HTTPException 502
for unparseable JSON. -/
inductive ProcErr where
  | oversized (status observed limit : Nat)
  | badJson (status : Nat)
deriving DecidableEq, Repr

/-- The chunked read loop of `processResponse`: accumulate `totalSize`,
abort with 413 as soon as it exceeds `MAX_RESPONSE_SIZE` (the current chunk
is then not buffered), otherwise push the chunk.  Bytes are modeled as
naturals, chunks as byte lists. -/
def readChunks : List (List Nat) → Nat → List (List Nat) →
    Except ProcErr (List (List Nat) × Nat)
  | [], total, acc => Except.ok (acc, total)
  | c :: rest, total, acc =>
    let total' := total + c.length
    if MAX_RESPONSE_SIZE < total' then
      Except.error (ProcErr.oversized 413 total' MAX_RESPONSE_SIZE)
    else readChunks rest total' (acc ++ [c])

/-- Number of bytes the read loop actually buffers (pushes into `chunks`)
before it completes or aborts, mirroring `readChunks` step for step. -/
def bufferedSize : List (List Nat) → Nat → Nat
  | [], _ => 0
  | c :: rest, total =>
    let total' := total + c.length
    if MAX_RESPONSE_SIZE < total' then 0
    else c.length + bufferedSize rest total'

/-- Total byte count of a chunk list. -/
def totalLen (chunks : List (List Nat)) : Nat := (chunks.map List.length).sum

/-- `processResponse` (src/utils/proxy.ts lines 203-261): a missing body
yields `{ data: null, bodyText: '', totalSize: 0 }`; otherwise read the
chunks bounded, concatenate, and JSON-parse (`parse`, abstract) the bytes,
failing with 502 when parsing fails. -/
def processResponse {α : Type} (parse : List Nat → Option α)
    (body : Option (List (List Nat))) : Except ProcErr (Option α × List Nat × Nat) :=
  match body with
  | none => Except.ok (none, [], 0)
  | some chunks =>
    match readChunks chunks 0 [] with
    | Except.error e => Except.error e
    | Except.ok (cks, total) =>
      let bytes := cks.flatten
      match parse bytes with
      | some d => Except.ok (some d, bytes, total)
      | none => Except.error (ProcErr.badJson 502)

/-- KV record of the rate limiter (src/types): count and resetTime (epoch ms). -/
structure RateLimitData where
  count : Nat
  resetTime : Nat
deriving DecidableEq, Repr

/-- Observable outcome of one rate-limit check: whether the request is
allowed, what record (with expirationTtl seconds) is written to KV, the
X-RateLimit-Remaining header value, and the Retry-After value on denial. -/
structure RLOutcome where
  allow : Bool
  put : Option (RateLimitData × Nat)
  remaining : Nat
  retryAfter : Option Nat
deriving DecidableEq, Repr

/-- Fresh-window branch of the rate limiter: record {count 1, now+windowMs},
persisted with `windowSeconds = Math.ceil(windowMs / 1000)`, remaining
`limit - 1`. -/
def rateLimitFresh (now windowMs limit : Nat) : RLOutcome :=
  ⟨true, some (⟨1, now + windowMs⟩, (windowMs + 999) / 1000), limit - 1, none⟩

/-- Core decision of the `rateLimiter` middleware (src/middleware/rateLimit.ts
lines 134-204) given the record read from KV and the current time.  Absent
or expired record: fresh window.  Live record at or above the limit: deny
with `retryAfter = Math.ceil((resetTime - now) / 1000)`, nothing written.
Live record below the limit: increment, write back with the remaining
window as TTL when that TTL is positive, remaining `limit - newCount`. -/
def rateLimitCheck (data : Option RateLimitData) (now windowMs limit : Nat) : RLOutcome :=
  match data with
  | none => rateLimitFresh now windowMs limit
  | some d =>
    if d.resetTime < now then rateLimitFresh now windowMs limit
    else if limit ≤ d.count then
      ⟨false, none, 0, some ((d.resetTime - now + 999) / 1000)⟩
    else
      let ttl := (d.resetTime - now + 999) / 1000
      ⟨true,
        if 0 < ttl then some (⟨d.count + 1, d.resetTime⟩, ttl) else none,
        limit - (d.count + 1), none⟩

/-- Final disposition of the rate-limit middleware for one request. -/
inductive RLFinal where
  | allowed (o : RLOutcome)
  | allowedSkipped
  | allowedAfterError
  | deniedLimit (status retryAfter : Nat)
  | deniedInternal (status : Nat)
deriving DecidableEq, Repr

/-- Outer control of the `rateLimiter` middleware (src/middleware/rateLimit.ts
lines 106-224).  `kvConfigured` is whether `c.env.RATE_LIMITER` is bound;
`store` is the KV interaction: an error when the store itself fails, else
the record it returns.  Unconfigured: 500 in production, skip with a
warning otherwise.  Store failure: 500 in production, allow (fail open)
otherwise.  Otherwise the logical check decides: HTTPException 429 on deny,
pass through on allow. -/
def rateLimiterRun (kvConfigured : Bool) (mode : Mode)
    (store : Except Unit (Option RateLimitData)) (now windowMs limit : Nat) : RLFinal :=
  if !kvConfigured && decide (mode = Mode.production) then RLFinal.deniedInternal 500
  else if !kvConfigured then RLFinal.allowedSkipped
  else
    match store with
    | Except.error _ =>
      if mode = Mode.production then RLFinal.deniedInternal 500
      else RLFinal.allowedAfterError
    | Except.ok data =>
      let o := rateLimitCheck data now windowMs limit
      if o.allow then RLFinal.allowed o
      else RLFinal.deniedLimit 429 (o.retryAfter.getD 0)

/-- `calculateDelay` (src/utils/fetch.ts): exponential backoff with ±25%
jitter, over exact rationals; `u` stands for the `Math.random()` draw in
[0, 1) and `round` is Math.round (half up). -/
def calculateDelay (attempt : Nat) (initialDelay maxDelay backoffMultiplier u : ℚ) : ℤ :=
  let exponentialDelay := initialDelay * backoffMultiplier ^ (attempt - 1)
  let clampedDelay := min exponentialDelay maxDelay
  let jitter := clampedDelay * (1/4) * (u * 2 - 1)
  round (clampedDelay + jitter)

/-! Theorems.  First, structural lemmas about the retry loop. -/

/-- Appending one element never yields the empty list. -/
theorem isEmpty_append_singleton {α : Type} (l : List α) (x : α) :
    (l ++ [x]).isEmpty = false := by
  cases l <;> rfl

/-- Once `lastResponse` is set, the retry loop can only resolve with a
response, never raise. -/
theorem retryLoop_some_ok (s : Resp → Bool) :
    ∀ (l : List Outcome) (le : Option String) (r : Resp),
      ∃ r', retryLoop s l le (some r) = Except.ok r' := by
  intro l
  induction l with
  | nil => exact fun le r => ⟨r, rfl⟩
  | cons o rest ih =>
    intro le r
    cases o with
    | resp r2 =>
      cases he : rest.isEmpty with
      | true => exact ⟨r2, by simp [retryLoop, he]⟩
      | false =>
        cases hs : s r2 with
        | true => simpa [retryLoop, he, hs] using ih le r2
        | false => exact ⟨r2, by simp [retryLoop, he, hs]⟩
    | thrown e => simpa [retryLoop] using ih (some e) r

/-- If every attempt before the last is retryable and the last attempt
returns a response, the loop returns exactly that response. -/
theorem retryLoop_last_resp (s : Resp → Bool) :
    ∀ (init : List Outcome) (r : Resp) (le : Option String) (lr : Option Resp),
      (∀ o ∈ init, retryable s o = true) →
      retryLoop s (init ++ [Outcome.resp r]) le lr = Except.ok r := by
  intro init
  induction init with
  | nil =>
    intro r le lr _
    simp [retryLoop]
  | cons o rest ih =>
    intro r le lr h
    have hhead : retryable s o = true := h o (by simp)
    have htail : ∀ o' ∈ rest, retryable s o' = true := fun o' ho' => h o' (by simp [ho'])
    cases o with
    | resp r2 =>
      have hs : s r2 = true := hhead
      simp [retryLoop, isEmpty_append_singleton, hs, ih r le (some r2) htail]
    | thrown e =>
      simp [retryLoop, ih r (some e) lr htail]

/-- If every attempt before the last is retryable, the last attempt throws,
and a response was already recorded, the loop resolves with the most recent
response seen. -/
theorem retryLoop_exhausted_some (s : Resp → Bool) :
    ∀ (init : List Outcome) (e : String) (le : Option String) (r : Resp),
      (∀ o ∈ init, retryable s o = true) →
      retryLoop s (init ++ [Outcome.thrown e]) le (some r)
        = Except.ok (lastRespD init r) := by
  intro init
  induction init with
  | nil =>
    intro e le r _
    simp [retryLoop, lastRespD]
  | cons o rest ih =>
    intro e le r h
    have hhead : retryable s o = true := h o (by simp)
    have htail : ∀ o' ∈ rest, retryable s o' = true := fun o' ho' => h o' (by simp [ho'])
    cases o with
    | resp r2 =>
      have hs : s r2 = true := hhead
      simp [retryLoop, isEmpty_append_singleton, hs, lastRespD, ih e le r2 htail]
    | thrown e2 =>
      simp [retryLoop, lastRespD, ih e (some e2) r htail]

/-- If every attempt before the last is retryable and the last attempt
throws, the loop resolves with the most recent response when one exists and
otherwise raises the last thrown error. -/
theorem retryLoop_exhausted_none (s : Resp → Bool) :
    ∀ (init : List Outcome) (e : String) (le : Option String),
      (∀ o ∈ init, retryable s o = true) →
      retryLoop s (init ++ [Outcome.thrown e]) le none
        = match lastResp? init with
          | some r => Except.ok r
          | none => Except.error e := by
  intro init
  induction init with
  | nil =>
    intro e le _
    simp [retryLoop, lastResp?]
  | cons o rest ih =>
    intro e le h
    have hhead : retryable s o = true := h o (by simp)
    have htail : ∀ o' ∈ rest, retryable s o' = true := fun o' ho' => h o' (by simp [ho'])
    cases o with
    | resp r2 =>
      have hs : s r2 = true := hhead
      simp [retryLoop, isEmpty_append_singleton, hs, lastResp?,
        retryLoop_exhausted_some s rest e le r2 htail]
    | thrown e2 =>
      simp [retryLoop, lastResp?, ih e (some e2) htail]

/-- C1 (amended): for a `fetchWithRetry` run that exhausts all attempts
(every attempt before the last is retryable: a thrown error, or a response
the retry predicate accepts): if the last attempt returns a response, that
response is returned; if the last attempt throws, the last network error is
raised exactly when no attempt ever produced a response, and otherwise the
most recently received response is returned rather than raising. -/
theorem fetchWithRetry_exhausted (s : Resp → Bool) (init : List Outcome) (last : Outcome)
    (hinit : ∀ o ∈ init, retryable s o = true) :
    (∀ r, last = Outcome.resp r →
      fetchWithRetry s (init ++ [last]) = Except.ok r)
    ∧ (∀ e, last = Outcome.thrown e →
      fetchWithRetry s (init ++ [last])
        = match lastResp? init with
          | some r => Except.ok r
          | none => Except.error e) := by
  constructor
  · intro r hr
    subst hr
    exact retryLoop_last_resp s init r none none hinit
  · intro e he
    subst he
    exact retryLoop_exhausted_none s init e none hinit

/-- C1 witness: two attempts, both throwing; the second error is raised. -/
theorem fetchWithRetry_exhausted_witness :
    fetchWithRetry retryOn5xx ([Outcome.thrown ("e1")] ++ [Outcome.thrown ("e2")])
      = Except.error "e2" := by
  have h := fetchWithRetry_exhausted retryOn5xx [Outcome.thrown ("e1")]
    (Outcome.thrown ("e2")) (by decide)
  simpa [lastResp?] using h.2 ("e2") rfl

/-- C1 counterexample: attempt 1 yields a retryable 500 response, attempt 2
(the final one) throws a network error; `fetchWithRetry` returns the
earlier 500 response instead of raising the last network error, against the
claim that a thrown final outcome always raises. -/
theorem fetchWithRetry_last_thrown_no_raise :
    fetchWithRetry retryOn5xx [Outcome.resp resp500, Outcome.thrown ("econnreset")]
      = Except.ok resp500
    ∧ retryOn5xx resp500 = true
    ∧ Outcome.isThrown (Outcome.thrown ("econnreset")) = true :=
  ⟨rfl, rfl, rfl⟩

/-- C2 (confirmed): for a 2xx upstream response, schema-validation success
yields the sole success exit — status equal to the upstream status, the
validated body, and the path-chosen cache headers (long public cache for
supported-chains paths, private no-cache otherwise, always JSON content
type); validation failure yields an HTTPException 502 whose structured
issues are attached in development mode only.  Conversely any 2xx response
produced by the shaping stage comes from that exit. -/
theorem executeProxyRequest_success_exit {α ι : Type} (mode : Mode) (pathname : String)
    (parse : α → Except ι α) (status : Nat) (data : α) :
    (statusOk status = true →
      (∀ v, parse data = Except.ok v →
        executeProxyRequest mode pathname parse status data
          = Except.ok ⟨status, v, createCacheHeaders pathname⟩)
      ∧ (∀ issues, parse data = Except.error issues →
        executeProxyRequest mode pathname parse status data
          = Except.error ⟨502, "Invalid response schema from upstream API",
              if mode = Mode.development then some issues else none⟩))
    ∧ (∀ r, executeProxyRequest mode pathname parse status data = Except.ok r →
        statusOk r.status = true →
        statusOk status = true
        ∧ ∃ v, parse data = Except.ok v ∧ r = ⟨status, v, createCacheHeaders pathname⟩)
    ∧ (pathIncludes pathname ("supported-chains") = true →
        createCacheHeaders pathname
          = [("Cache-Control", supportedChainsCacheValue),
             ("Content-Type", "application/json")])
    ∧ (pathIncludes pathname ("supported-chains") = false →
        createCacheHeaders pathname
          = [("Cache-Control", "private, no-cache"),
             ("Content-Type", "application/json")]) := by
  refine ⟨?_, ?_, ?_, ?_⟩
  · intro hok
    constructor
    · intro v hv
      simp [executeProxyRequest, hok, hv]
    · intro issues hi
      simp [executeProxyRequest, hok, hi]
  · intro r hr hrok
    cases hok : statusOk status with
    | true =>
      cases hp : parse data with
      | ok v =>
        refine ⟨rfl, v, rfl, ?_⟩
        have h := hr
        simp [executeProxyRequest, hok, hp] at h
        exact h.symm
      | error i =>
        exfalso
        simp [executeProxyRequest, hok, hp] at hr
    | false =>
      exfalso
      have h := hr
      simp [executeProxyRequest, hok] at h
      rw [← h] at hrok
      simp [hok] at hrok
  · intro h
    simp [createCacheHeaders, h]
  · intro h
    simp [createCacheHeaders, h]

/-- C2 witness: development mode, a non-supported-chains path, a schema
accepting the body; the shaped 200 response carries the private no-cache
headers. -/
theorem executeProxyRequest_success_exit_witness :
    executeProxyRequest Mode.development ("/v1/evm/balances/0xd8da")
      (fun n : Nat => (Except.ok n : Except Nat Nat)) 200 7
      = Except.ok ⟨200, 7, [("Cache-Control", "private, no-cache"),
                            ("Content-Type", "application/json")]⟩ := by
  have h := (executeProxyRequest_success_exit Mode.development ("/v1/evm/balances/0xd8da")
    (fun n : Nat => (Except.ok n : Except Nat Nat)) 200 7).1 (by decide)
  have h2 := h.1 7 rfl
  simpa [createCacheHeaders, pathIncludes] using h2

/-- C3 (confirmed): for a non-2xx upstream response the orchestrator
returns the upstream status and the parsed body unmodified with a JSON
content type, and the result does not depend on the schema at all (no
validation is applied to error bodies). -/
theorem executeProxyRequest_passthrough {α ι : Type} (mode : Mode) (pathname : String)
    (status : Nat) (data : α) (h : statusOk status = false) :
    ∀ parse : α → Except ι α,
      executeProxyRequest mode pathname parse status data
        = Except.ok ⟨status, data, [("Content-Type", "application/json")]⟩ := by
  intro parse
  simp [executeProxyRequest, h]

/-- C3 witness: a 500 upstream body passes through verbatim even under a
schema that rejects every body. -/
theorem executeProxyRequest_passthrough_witness :
    executeProxyRequest Mode.production ("/v1/evm/balances/0xd8da")
      (fun _ : String => (Except.error 0 : Except Nat String)) 500
      "\x7b\"error\":\"internal\"\x7d"
      = Except.ok ⟨500, "\x7b\"error\":\"internal\"\x7d",
                   [("Content-Type", "application/json")]⟩ :=
  executeProxyRequest_passthrough Mode.production ("/v1/evm/balances/0xd8da") 500
    "\x7b\"error\":\"internal\"\x7d" (by decide)
    (fun _ : String => (Except.error 0 : Except Nat String))

/-- C4 (confirmed): an invocation whose subrequest counter is at or above
MAX_SUBREQUESTS (45) is rejected with a 429 error carrying the limit and
the current count, leaves the counter unchanged, and issues no outbound
call; below the limit the counter is incremented and the invocation is
never the budget rejection. -/
theorem proxyRequest_budget_gate {ε ρ : Type} (method : String) (count : Nat)
    (inFlight : Option (Except ε ρ)) (fresh : Except ε ρ) :
    (MAX_SUBREQUESTS ≤ count →
      proxyRequest method count inFlight fresh
        = ⟨Except.error (ProxyFailure.budget 429 MAX_SUBREQUESTS count), count, 0⟩)
    ∧ (count < MAX_SUBREQUESTS →
      (proxyRequest method count inFlight fresh).newCount = count + 1
      ∧ ∀ st l cur, (proxyRequest method count inFlight fresh).result
          ≠ Except.error (ProxyFailure.budget st l cur)) := by
  constructor
  · intro h
    simp [proxyRequest, h]
  · intro h
    have h' : ¬ MAX_SUBREQUESTS ≤ count := Nat.not_le.mpr h
    constructor
    · cases hd : shouldDeduplicate method with
      | true =>
        cases inFlight with
        | none => simp [proxyRequest, h', hd]
        | some x => cases x <;> simp [proxyRequest, h', hd]
      | false => simp [proxyRequest, h', hd]
    · intro st l cur
      cases hd : shouldDeduplicate method with
      | true =>
        cases inFlight with
        | none => cases fresh <;> simp [proxyRequest, h', hd, Except.mapError]
        | some x =>
          cases x with
          | ok r => simp [proxyRequest, h', hd]
          | error e => cases fresh <;> simp [proxyRequest, h', hd, Except.mapError]
      | false => cases fresh <;> simp [proxyRequest, h', hd, Except.mapError]

/-- C4 witness: at the limit (45 prior increments) the call is rejected
with limit and count, no increment, no outbound call. -/
theorem proxyRequest_budget_gate_witness :
    proxyRequest ("GET") 45 (none : Option (Except String Nat)) (Except.ok 7)
      = ⟨Except.error (ProxyFailure.budget 429 45 45), 45, 0⟩ :=
  (proxyRequest_budget_gate ("GET") 45 none (Except.ok 7)).1 (by decide)

/-- C9 (confirmed): a GET/HEAD invocation below the budget that finds an
in-flight entry for its key receives a clone of the shared result when that
result resolves, issuing no outbound call; when the shared result rejects,
the caller does not propagate that failure but issues exactly one fresh
outbound sequence of its own, whose outcome becomes the result seen by the caller. -/
theorem proxyRequest_dedup_fanin {ε ρ : Type} (method : String) (count : Nat)
    (o : Except ε ρ) (fresh : Except ε ρ)
    (hm : shouldDeduplicate method = true) (hc : count < MAX_SUBREQUESTS) :
    (∀ r, o = Except.ok r →
      proxyRequest method count (some o) fresh
        = ⟨Except.ok (cloneResponse r), count + 1, 0⟩)
    ∧ (∀ e, o = Except.error e →
      proxyRequest method count (some o) fresh
        = ⟨fresh.mapError ProxyFailure.upstream, count + 1, 1⟩) := by
  have h' : ¬ MAX_SUBREQUESTS ≤ count := Nat.not_le.mpr hc
  constructor
  · intro r hr
    subst hr
    simp [proxyRequest, h', hm]
  · intro e he
    subst he
    simp [proxyRequest, h', hm]

/-- C9 witness: the shared in-flight result failed; the waiting caller gets
its own fresh (successful) result from exactly one fallback sequence. -/
theorem proxyRequest_dedup_fanin_witness :
    proxyRequest ("GET") 3 (some (Except.error ("boom"))) (Except.ok (7 : Nat))
      = ⟨Except.ok 7, 4, 1⟩ :=
  (proxyRequest_dedup_fanin ("GET") 3 (Except.error ("boom")) (Except.ok (7 : Nat))
    rfl (by decide)).2 ("boom") rfl

/-- C10 (confirmed): every invocation that passes the budget gate bumps the
subrequest counter by exactly one — including invocations answered from an
existing in-flight entry, which issue no outbound call — so the counter
counts `proxyRequest` invocations, not real outbound calls. -/
theorem proxyRequest_counts_invocations {ε ρ : Type} (method : String) (count : Nat)
    (inFlight : Option (Except ε ρ)) (fresh : Except ε ρ)
    (hc : count < MAX_SUBREQUESTS) :
    (proxyRequest method count inFlight fresh).newCount = count + 1
    ∧ (∀ r, shouldDeduplicate method = true → inFlight = some (Except.ok r) →
        (proxyRequest method count inFlight fresh).outboundCalls = 0) := by
  have h' : ¬ MAX_SUBREQUESTS ≤ count := Nat.not_le.mpr hc
  constructor
  · cases hd : shouldDeduplicate method with
    | true =>
      cases inFlight with
      | none => simp [proxyRequest, h', hd]
      | some x => cases x <;> simp [proxyRequest, h', hd]
    | false => simp [proxyRequest, h', hd]
  · intro r hm hin
    subst hin
    simp [proxyRequest, h', hm]

/-- C10 witness: a dedup hit issues no outbound call yet still consumes one
unit of budget. -/
theorem proxyRequest_counts_invocations_witness :
    (proxyRequest ("GET") 0 (some (Except.ok 9 : Except String Nat))
        (Except.ok 7 : Except String Nat)).newCount = 1
    ∧ (proxyRequest ("GET") 0 (some (Except.ok 9 : Except String Nat))
        (Except.ok 7 : Except String Nat)).outboundCalls = 0 :=
  ⟨(proxyRequest_counts_invocations ("GET") 0 (some (Except.ok 9 : Except String Nat))
      (Except.ok 7) (by decide)).1,
   (proxyRequest_counts_invocations ("GET") 0 (some (Except.ok 9 : Except String Nat))
      (Except.ok 7) (by decide)).2 9 rfl rfl⟩

/-- When the cumulative size crosses the ceiling somewhere in the stream,
the read loop aborts with a 413 condition carrying the observed size (which
exceeds the limit) and the limit itself. -/
theorem readChunks_over (chunks : List (List Nat)) :
    ∀ (total : Nat) (acc : List (List Nat)),
      total ≤ MAX_RESPONSE_SIZE → MAX_RESPONSE_SIZE < total + totalLen chunks →
      ∃ obs, readChunks chunks total acc
          = Except.error (ProcErr.oversized 413 obs MAX_RESPONSE_SIZE)
        ∧ MAX_RESPONSE_SIZE < obs := by
  induction chunks with
  | nil =>
    intro total acc h1 h2
    exfalso
    simp [totalLen] at h2
    omega
  | cons c rest ih =>
    intro total acc h1 h2
    by_cases hc : MAX_RESPONSE_SIZE < total + c.length
    · exact ⟨total + c.length, by simp [readChunks, hc], hc⟩
    · have hc' : total + c.length ≤ MAX_RESPONSE_SIZE := Nat.not_lt.mp hc
      have h2' : MAX_RESPONSE_SIZE < (total + c.length) + totalLen rest := by
        simp [totalLen] at h2 ⊢
        omega
      simpa [readChunks, hc] using ih (total + c.length) (acc ++ [c]) hc' h2'

/-- The bytes the read loop buffers never exceed the ceiling, whether it
completes or aborts. -/
theorem bufferedSize_le (chunks : List (List Nat)) :
    ∀ total, total ≤ MAX_RESPONSE_SIZE →
      total + bufferedSize chunks total ≤ MAX_RESPONSE_SIZE := by
  induction chunks with
  | nil =>
    intro total h
    simpa [bufferedSize] using h
  | cons c rest ih =>
    intro total h
    by_cases hc : MAX_RESPONSE_SIZE < total + c.length
    · simpa [bufferedSize, hc] using h
    · have := ih (total + c.length) (Nat.not_lt.mp hc)
      simp [bufferedSize, hc]
      omega

/-- `bufferedSize` is exactly the byte count the loop adds to its buffer:
on a completed read the size of the result equals the size of the entry buffer plus it. -/
theorem readChunks_ok_buffered (chunks : List (List Nat)) :
    ∀ total acc res t, readChunks chunks total acc = Except.ok (res, t) →
      totalLen res = totalLen acc + bufferedSize chunks total := by
  induction chunks with
  | nil =>
    intro total acc res t h
    simp [readChunks] at h
    rcases h with ⟨rfl, rfl⟩
    simp [bufferedSize]
  | cons c rest ih =>
    intro total acc res t h
    by_cases hc : MAX_RESPONSE_SIZE < total + c.length
    · simp [readChunks, hc] at h
    · simp [readChunks, hc] at h
      have := ih (total + c.length) (acc ++ [c]) res t h
      simp [bufferedSize, hc, totalLen, List.map_append, List.sum_append] at this ⊢
      omega

/-- C5 (confirmed): a body stream whose cumulative byte count exceeds
MAX_RESPONSE_SIZE makes the bounded reader abort with an oversized (413)
condition carrying the observed size and the limit; it never yields a
parsed JSON result and never buffers bytes past the limit, while a missing
body yields the null/empty result rather than an error. -/
theorem processResponse_bounded {α : Type} (parse : List Nat → Option α)
    (chunks : List (List Nat)) (hover : MAX_RESPONSE_SIZE < totalLen chunks) :
    (∃ obs, processResponse parse (some chunks)
        = Except.error (ProcErr.oversized 413 obs MAX_RESPONSE_SIZE)
      ∧ MAX_RESPONSE_SIZE < obs)
    ∧ (∀ v, processResponse parse (some chunks) ≠ Except.ok v)
    ∧ bufferedSize chunks 0 ≤ MAX_RESPONSE_SIZE
    ∧ processResponse parse none = Except.ok (none, [], 0) := by
  obtain ⟨obs, heq, hobs⟩ :=
    readChunks_over chunks 0 [] (Nat.zero_le _) (by simpa using hover)
  refine ⟨⟨obs, ?_, hobs⟩, ?_, ?_, rfl⟩
  · simp [processResponse, heq]
  · intro v
    simp [processResponse, heq]
  · simpa using bufferedSize_le chunks 0 (Nat.zero_le _)

/-- C5 witness: a single chunk one byte past the 24MB ceiling aborts with
the oversized condition. -/
theorem processResponse_bounded_witness :
    ∃ obs, processResponse (fun _ => (some 0 : Option Nat))
        (some [List.replicate (MAX_RESPONSE_SIZE + 1) 0])
        = Except.error (ProcErr.oversized 413 obs MAX_RESPONSE_SIZE)
      ∧ MAX_RESPONSE_SIZE < obs :=
  (processResponse_bounded (fun _ => (some 0 : Option Nat))
    [List.replicate (MAX_RESPONSE_SIZE + 1) 0] (by simp [totalLen])).1

/-- C6 (amended): on a rate-limit check, an absent or expired record starts
a fresh window {count 1, resetTime now+windowMs} persisted with the window
as TTL, allowing with remaining = limit-1; a live record below the limit is
incremented, allowed with remaining = limit-newCount, and persisted with
the ceiling of the seconds left in the window as TTL whenever that time is
positive — at the boundary resetTime = now the incremented count is not
written back; a live record at or above the limit is denied with
retryAfter = ceil((resetTime-now)/1000) and nothing is written. -/
theorem rateLimitCheck_spec (data : Option RateLimitData) (now windowMs limit : Nat)
    (_hlim : 0 < limit) :
    ((data = none ∨ ∃ d, data = some d ∧ d.resetTime < now) →
      rateLimitCheck data now windowMs limit
        = ⟨true, some (⟨1, now + windowMs⟩, (windowMs + 999) / 1000), limit - 1, none⟩)
    ∧ (∀ d, data = some d → now ≤ d.resetTime → d.count < limit →
      (rateLimitCheck data now windowMs limit).allow = true
      ∧ (rateLimitCheck data now windowMs limit).remaining = limit - (d.count + 1)
      ∧ (rateLimitCheck data now windowMs limit).retryAfter = none
      ∧ (now < d.resetTime →
          (rateLimitCheck data now windowMs limit).put
            = some (⟨d.count + 1, d.resetTime⟩, (d.resetTime - now + 999) / 1000))
      ∧ (d.resetTime = now → (rateLimitCheck data now windowMs limit).put = none))
    ∧ (∀ d, data = some d → now ≤ d.resetTime → limit ≤ d.count →
      rateLimitCheck data now windowMs limit
        = ⟨false, none, 0, some ((d.resetTime - now + 999) / 1000)⟩) := by
  refine ⟨?_, ?_, ?_⟩
  · rintro (rfl | ⟨d, rfl, hd⟩)
    · rfl
    · simp [rateLimitCheck, hd, rateLimitFresh]
  · intro d hd hnow hcount
    subst hd
    have h1 : ¬ d.resetTime < now := Nat.not_lt.mpr hnow
    have h2 : ¬ limit ≤ d.count := Nat.not_le.mpr hcount
    refine ⟨by simp [rateLimitCheck, h1, h2], by simp [rateLimitCheck, h1, h2],
      by simp [rateLimitCheck, h1, h2], ?_, ?_⟩
    · intro hlt
      have hpos : 0 < (d.resetTime - now + 999) / 1000 := by omega
      simp [rateLimitCheck, h1, h2, hpos]
    · intro heq
      have hzero : (d.resetTime - now + 999) / 1000 = 0 := by omega
      simp [rateLimitCheck, h1, h2, hzero]
  · intro d hd hnow hge
    subst hd
    have h1 : ¬ d.resetTime < now := Nat.not_lt.mpr hnow
    simp [rateLimitCheck, h1, hge]

/-- C6 witness: a live record {count 2, resetTime 5000} at time 1000 under
limit 5 is allowed, persisted as {count 3} with a 4-second TTL, with
remaining 2. -/
theorem rateLimitCheck_spec_witness :
    (rateLimitCheck (some ⟨2, 5000⟩) 1000 60000 5).allow = true
    ∧ (rateLimitCheck (some ⟨2, 5000⟩) 1000 60000 5).remaining = 2
    ∧ (rateLimitCheck (some ⟨2, 5000⟩) 1000 60000 5).put = some (⟨3, 5000⟩, 4) := by
  have h := (rateLimitCheck_spec (some ⟨2, 5000⟩) 1000 60000 5 (by decide)).2.1
    ⟨2, 5000⟩ rfl (by decide) (by decide)
  exact ⟨h.1, h.2.1, h.2.2.2.1 (by decide)⟩

/-- C6 counterexample: a live record whose resetTime equals the current
instant exactly is treated as in-window and its count is incremented, but
nothing is persisted (the TTL would be 0), against the claim that every
allowed in-window increment is persisted. -/
theorem rateLimitCheck_boundary_no_persist :
    rateLimitCheck (some ⟨1, 1000⟩) 1000 60000 5 = ⟨true, none, 3, none⟩ := by
  decide

/-- C7 (confirmed): when the counter store itself errors the middleware
denies with an internal 500 in production and allows (fail-open) in
development; when the store is not configured at all it hard-fails with 500
in production and skips limiting in development. -/
theorem rateLimiterRun_failures (kv : Bool) (mode : Mode)
    (store : Except Unit (Option RateLimitData)) (now windowMs limit : Nat) :
    (kv = true → store = Except.error () →
      (mode = Mode.production →
        rateLimiterRun kv mode store now windowMs limit = RLFinal.deniedInternal 500)
      ∧ (mode = Mode.development →
        rateLimiterRun kv mode store now windowMs limit = RLFinal.allowedAfterError))
    ∧ (kv = false →
      (mode = Mode.production →
        rateLimiterRun kv mode store now windowMs limit = RLFinal.deniedInternal 500)
      ∧ (mode = Mode.development →
        rateLimiterRun kv mode store now windowMs limit = RLFinal.allowedSkipped)) := by
  constructor
  · rintro rfl rfl
    exact ⟨fun h => by subst h; rfl, fun h => by subst h; rfl⟩
  · rintro rfl
    exact ⟨fun h => by subst h; rfl, fun h => by subst h; rfl⟩

/-- C7 witness: a store error in production denies with 500. -/
theorem rateLimiterRun_failures_witness :
    rateLimiterRun true Mode.production (Except.error ()) 0 60000 100
      = RLFinal.deniedInternal 500 :=
  ((rateLimiterRun_failures true Mode.production (Except.error ()) 0 60000 100).1
    rfl rfl).1 rfl

/-- C8 (amended): for every 1-based attempt, non-negative initialDelay,
maxDelay and multiplier, and every random draw u in [0,1), the computed
delay is non-negative and lies within the jitter band widened by the
rounding slack: between 0.75×clamped − 1/2 and 1.25×clamped + 1/2, where
clamped = min(initialDelay×multiplier^(attempt−1), maxDelay). -/
theorem calculateDelay_bounds (attempt : Nat)
    (initialDelay maxDelay backoffMultiplier u : ℚ)
    (_h1 : 1 ≤ attempt) (hid : 0 ≤ initialDelay) (hmd : 0 ≤ maxDelay)
    (hmu : 0 ≤ backoffMultiplier) (hu0 : 0 ≤ u) (hu1 : u < 1) :
    0 ≤ calculateDelay attempt initialDelay maxDelay backoffMultiplier u
    ∧ (3/4) * min (initialDelay * backoffMultiplier ^ (attempt - 1)) maxDelay - 1/2
        ≤ (calculateDelay attempt initialDelay maxDelay backoffMultiplier u : ℚ)
    ∧ (calculateDelay attempt initialDelay maxDelay backoffMultiplier u : ℚ)
        ≤ (5/4) * min (initialDelay * backoffMultiplier ^ (attempt - 1)) maxDelay + 1/2 := by
  obtain ⟨c, hc⟩ :
      ∃ c, c = min (initialDelay * backoffMultiplier ^ (attempt - 1)) maxDelay := ⟨_, rfl⟩
  have hc0 : 0 ≤ c := hc ▸ le_min (mul_nonneg hid (pow_nonneg hmu _)) hmd
  have hcd : calculateDelay attempt initialDelay maxDelay backoffMultiplier u
      = round (c + c * (1/4) * (u * 2 - 1)) := by rw [hc]; rfl
  have hj1 : -(c * (1/4)) ≤ c * (1/4) * (u * 2 - 1) := by
    nlinarith [mul_nonneg hc0 hu0]
  have hj2 : c * (1/4) * (u * 2 - 1) ≤ c * (1/4) := by
    nlinarith [mul_nonneg hc0 (sub_nonneg.mpr hu1.le)]
  have habs := abs_sub_round (c + c * (1/4) * (u * 2 - 1))
  have hup := (abs_le.mp habs).2
  have hlo := (abs_le.mp habs).1
  rw [← hc, hcd]
  refine ⟨?_, by linarith, by linarith⟩
  have hgt : (-1 : ℚ) < ((round (c + c * (1/4) * (u * 2 - 1)) : ℤ) : ℚ) := by
    linarith
  have hgt' : (-1 : ℤ) < round (c + c * (1/4) * (u * 2 - 1)) := by
    exact_mod_cast hgt
  omega

/-- C8 witness: the defaults (attempt 1, initialDelay 1000, maxDelay 10000,
multiplier 2) with u = 1/2 give a delay of 1000, inside the widened band. -/
theorem calculateDelay_bounds_witness :
    0 ≤ calculateDelay 1 1000 10000 2 (1/2)
    ∧ (3/4) * min ((1000 : ℚ) * 2 ^ (1 - 1)) 10000 - 1/2
        ≤ (calculateDelay 1 1000 10000 2 (1/2) : ℚ)
    ∧ (calculateDelay 1 1000 10000 2 (1/2) : ℚ)
        ≤ (5/4) * min ((1000 : ℚ) * 2 ^ (1 - 1)) 10000 + 1/2 :=
  calculateDelay_bounds 1 1000 10000 2 (1/2) (by norm_num) (by norm_num)
    (by norm_num) (by norm_num) (by norm_num) (by norm_num)

/-- C8 counterexample: attempt 1, initialDelay 3, multiplier 2, maxDelay 10
and the random draw u = 0 give clamped = 3 and a rounded delay of 2, which
is strictly below 0.75×clamped = 2.25 — the claimed band does not survive
Math.round. -/
theorem calculateDelay_outside_band :
    calculateDelay 1 3 10 2 0 = 2
    ∧ (calculateDelay 1 3 10 2 0 : ℚ)
        < (3/4) * min ((3 : ℚ) * 2 ^ (1 - 1)) 10 := by
  have h : calculateDelay 1 3 10 2 0 = 2 := by
    have : (3 : ℚ) + 3 * (1/4) * (0 * 2 - 1) = 9/4 := by norm_num
    simp only [calculateDelay, pow_zero, mul_one]
    norm_num [round_eq]
  refine ⟨h, ?_⟩
  rw [h]
  norm_num

end SimProxy
